import Mathlib

/-!
Shallow embedding of the `photonai_icu` resampling transformers.

The repository holds two near-duplicate scikit-learn-style transformers:

* variant 1: `src/photonai_icu/resampler/ResamplerTransformer.py`
* variant 2: `src/photonai_icu/transformer/ResamplerTransformer.py`

Both wrap the pandas pipeline `groupby(groupby).resample(frequency).agg(method)`
with light validation and post-processing.  The embedding below models:

* a pandas `DataFrame` as index-level dtypes plus rows `(group key, timestamp,
  cells)`, where a cell is `Option ℚ` (`none` is pandas `NaN`/`NA`);
* timestamps as integers (e.g. minutes since an epoch) and `frequency` as an
  integer bucket width, so that `"1H"` becomes `60`;
* aggregation methods as functions `List ℚ → Option ℚ` applied to the non-missing
  values of one bucket/column pair (`none` is an all-missing aggregate, as pandas
  `mean` yields `NaN` on an empty bucket while `sum` yields `0`);
* the raise/ignore behaviour of variant 2 with an `Except String` result, and the
  log side channel as a list of emitted messages.
-/

/-- Dtype of one index level: pandas `is_datetime64_any_dtype` distinguishes
datetime-typed levels from everything else. -/
inductive Dtype where
  | datetime
  | other
  deriving DecidableEq, Repr

/-- A pandas DataFrame as used by both transformers: the dtypes of its index
levels (a single-level index is a one-element list; `is_datetime64_any_dtype`
on a MultiIndex is false), its value-column names, and its rows.  Each row
carries the grouping-key value, the timestamp, and one cell per value column.
Whether the key lives in the index (variant 2's input) or in a column
(variant 1's input) only matters to the index-dtype checks, which read
`indexDtypes`. -/
structure DataFrame where
  indexDtypes : List Dtype
  cols : List String
  rows : List (Int × Int × List (Option ℚ))
  deriving DecidableEq, Repr

/-- A Python object handed to `transform`: either a pandas DataFrame or any
other object (tagged by an arbitrary string standing for its type/repr). -/
inductive PyObject where
  | dataFrame (df : DataFrame)
  | other (tag : String)
  deriving DecidableEq, Repr

/-- An aggregation method (`agg`), given the non-missing values of one bucket
of one column; `none` is a missing aggregate (pandas `NaN`). -/
def Agg : Type := List ℚ → Option ℚ

/-- The `"mean"` aggregation: `NaN` on an empty/all-missing bucket, else the
arithmetic mean of the present values. -/
def aggMean : Agg := fun l =>
  match l with
  | [] => none
  | _ => some (l.sum / (l.length : ℚ))

/-- The `"sum"` aggregation: pandas sums with `min_count=0`, so an empty bucket
aggregates to `0`, never to `NaN`. -/
def aggSum : Agg := fun l => some l.sum

/-- The `"max"` aggregation (`NaN` on an empty bucket). -/
def aggMax : Agg := fun l => l.max?

/-- The `"min"` aggregation (`NaN` on an empty bucket). -/
def aggMin : Agg := fun l => l.min?

/-- The `"first"` aggregation (`NaN` on an empty bucket). -/
def aggFirst : Agg := fun l => l.head?

/-- The `"last"` aggregation (`NaN` on an empty bucket). -/
def aggLast : Agg := fun l => l.getLast?

/-- Left-closed bucket start for timestamp `t` at width `freq`, aligned to the
global origin `0` (`resample` aligns buckets consistently across groups). -/
def bucketOf (freq t : Int) : Int := freq * Int.fdiv t freq

/-- The complete bucket grid from `bmin` to `bmax` (both bucket starts),
stepping by `freq`: `resample` keeps empty buckets, so every bucket between a
group's first and last observation appears. -/
def bucketRange (freq bmin bmax : Int) : List Int :=
  (List.range ((bmax - bmin).toNat / freq.toNat + 1)).map (fun (i : Nat) => bmin + freq * (i : Int))

/-- Insert into a sorted list of keys (`groupby` sorts group keys). -/
def insertSorted (x : Int) : List Int → List Int
  | [] => [x]
  | y :: ys => if x ≤ y then x :: y :: ys else y :: insertSorted x ys

/-- Sort the group keys ascending, as pandas `groupby` does by default. -/
def sortInts (l : List Int) : List Int := l.foldr insertSorted []

/-- The distinct group keys of a frame, in the (sorted) order `groupby`
enumerates groups. -/
def groupKeys (df : DataFrame) : List Int :=
  sortInts (df.rows.map (fun r => r.1)).dedup

/-- The rows `groupby(groupby).resample(frequency).agg(method)` produces for one
group `g`: nothing when the group is absent; otherwise one row per bucket from
the group's earliest to latest bucket, each cell aggregating the non-missing
values of that bucket/column pair. -/
def aggRowsFor (freq : Int) (method : Agg) (df : DataFrame) (g : Int) :
    List (Int × Int × List (Option ℚ)) :=
  match (df.rows.filter (fun r => r.1 = g)).map (fun r => bucketOf freq r.2.1) with
  | [] => []
  | b :: bs =>
    (bucketRange freq (bs.foldl min b) (bs.foldl max b)).map (fun t =>
      (g, t, (List.range df.cols.length).map (fun j =>
        method (((df.rows.filter (fun r => r.1 = g)).filter
            (fun r => bucketOf freq r.2.1 = t)).filterMap
          (fun r => (r.2.2[j]?).getD none)))))

/-- `X.groupby(groupby).resample(frequency).agg(method)`: one block of bucket
rows per group, in sorted group order; the result is indexed by
`(group, bucket start)`, hence the two-level index dtypes. -/
def aggregated (freq : Int) (method : Agg) (df : DataFrame) : DataFrame :=
  { indexDtypes := [Dtype.other, Dtype.datetime]
    cols := df.cols
    rows := (groupKeys df).flatMap (aggRowsFor freq method df) }

/-- Apply a cell-wise transformation to every cell of every row. -/
def mapCells (f : Option ℚ → Option ℚ) (df : DataFrame) : DataFrame :=
  { df with rows := df.rows.map (fun r => (r.1, r.2.1, r.2.2.map f)) }

/-- `fillna(v)`: every missing cell becomes `v`; present cells are unchanged. -/
def fillna (v : ℚ) (df : DataFrame) : DataFrame :=
  mapCells (fun c => some (c.getD v)) df

/-- The cell of row `i`, column position `j` (`none` when the position does not
exist; `some none` is an existing missing cell). -/
def cellAt (df : DataFrame) (i j : Nat) : Option (Option ℚ) :=
  (df.rows[i]?).bind (fun r => r.2.2[j]?)

/-- The group-key values of a frame's rows, with multiplicity. -/
def keysOf (df : DataFrame) : List Int := df.rows.map (fun r => r.1)

/-- Configuration of variant 1 (`resampler/ResamplerTransformer.py`).  The
`method` strings of the source are modelled as the aggregation functions
above. -/
structure V1Config where
  frequency : Int
  method : Agg
  groupby : String
  default_value : Option ℚ

/-- Variant 1's `__init__`: each argument defaults when `None` — in particular
`default_value` defaults to `0.0`, so a constructed variant-1 transformer never
has a null `default_value`.  (`"1H"` is modelled as `60`, `"mean"` as
`aggMean`.) -/
def v1_init (frequency : Option Int) (method : Option Agg) (groupby : Option String)
    (default_value : Option ℚ) : V1Config :=
  { frequency := frequency.getD 60
    method := method.getD aggMean
    groupby := groupby.getD "stay_id"
    default_value := some (default_value.getD 0) }

/-- Variant 1's `fit`: returns `self` untouched. -/
def v1_fit (c : V1Config) (_X : Option PyObject) (_y : Option PyObject) : V1Config := c

/-- Result of variant 1's `transform`: the returned object, the log messages
emitted, and whether the resampling pipeline ran (false on the two validation
failure paths, which return early). -/
structure V1Result where
  output : PyObject
  logs : List String
  didResample : Bool
  deriving DecidableEq, Repr

/-- Variant 1's index check: `is_datetime64_any_dtype(X.index)` holds exactly
for a single-level datetime index (it is false on any MultiIndex). -/
def isDatetimeIndex (df : DataFrame) : Bool :=
  match df.indexDtypes with
  | [Dtype.datetime] => true
  | _ => false

/-- Variant 1's `transform`: log and return `X` unchanged when `X` is not a
DataFrame or its index is not datetime-typed (never raising); otherwise
`groupby.resample.agg`, then `fillna(default_value)` unless `default_value`
is `None`. -/
def v1_transform (c : V1Config) (X : PyObject) : V1Result :=
  match X with
  | PyObject.dataFrame df =>
    if isDatetimeIndex df then
      let r := aggregated c.frequency c.method df
      match c.default_value with
      | none => ⟨PyObject.dataFrame r, [], true⟩
      | some v => ⟨PyObject.dataFrame (fillna v r), [], true⟩
    else
      ⟨X, ["ResamplerTransformer: X does not have a datetime index"], false⟩
  | PyObject.other _ =>
    ⟨X, ["ResamplerTransformer: X is not a pandas DataFrame"], false⟩

/-- The cell of row `i`, column `j` of a result's output frame (`none` when the
output is not a DataFrame or the position does not exist). -/
def v1outCell (r : V1Result) (i j : Nat) : Option (Option ℚ) :=
  match r.output with
  | PyObject.dataFrame f => cellAt f i j
  | PyObject.other _ => none

/-- Configuration of variant 2 (`transformer/ResamplerTransformer.py`).  The
`error` policy is any string; the source compares it to the literal
`"raise"`. -/
structure V2Config where
  frequency : Int
  groupby : String
  method : Agg
  default_value : Option ℚ
  error : String

/-- Variant 2's `__init__`: plain assignment of the arguments (the Python
defaults are `frequency="1H"`, `groupby="stay_id"`, `method="mean"`,
`default_value=None`, `error="raise"`; unlike variant 1, a null
`default_value` stays null). -/
def v2_init (frequency : Int) (groupby : String) (method : Agg)
    (default_value : Option ℚ) (error : String) : V2Config :=
  { frequency := frequency
    groupby := groupby
    method := method
    default_value := default_value
    error := error }

/-- Variant 2's `fit`: returns `self` untouched. -/
def v2_fit (c : V2Config) (_X : PyObject) (_y : Option PyObject) : V2Config := c

/-- Variant 2's index check: `any(is_datetime64_any_dtype(...) for ix_name in
X.index.names)` — at least one index level is datetime-typed. -/
def anyDatetimeLevel (df : DataFrame) : Bool :=
  df.indexDtypes.any (fun d => d == Dtype.datetime)

/-- `X.reset_index(groupby)`: the grouping key moves out of the index into a
new leading column named `groupby` (the key value, as a numeric cell, repeated
on every row).  The embedding tracks the key in a dedicated row field, so only
the column list and the cells change here. -/
def resetIndexKey (g : String) (df : DataFrame) : DataFrame :=
  { df with
    cols := g :: df.cols
    rows := df.rows.map (fun r => (r.1, r.2.1, some ((r.1 : ℚ)) :: r.2.2)) }

/-- `drop(columns=groupby, errors="ignore")`: remove every column whose name is
`g` together with its cells; no error when the column is absent. -/
def dropColumn (g : String) (df : DataFrame) : DataFrame :=
  { df with
    cols := df.cols.filter (fun c => c ≠ g)
    rows := df.rows.map (fun r =>
      (r.1, r.2.1, ((df.cols.zip r.2.2).filter (fun p => p.1 ≠ g)).map (fun p => p.2))) }

/-- Variant 2's aggregation pipeline:
`X.reset_index(groupby).groupby(groupby).resample(frequency).agg(method)
.drop(columns=groupby, errors="ignore")` — the grouping-key column persists
through aggregation (it is aggregated like any other column) and is then
dropped. -/
def v2core (freq : Int) (method : Agg) (g : String) (df : DataFrame) : DataFrame :=
  dropColumn g (aggregated freq method (resetIndexKey g df))

/-- The loop `resampeld_x.loc[resampeld_x[column] == 0, column] = pd.NA`: every
cell numerically equal to zero becomes missing; `NaN == 0` is false in pandas,
so missing cells are untouched. -/
def zeroToNA (df : DataFrame) : DataFrame :=
  mapCells (fun c => if c = some 0 then none else c) df

instance {ε α : Type} [DecidableEq ε] [DecidableEq α] : DecidableEq (Except ε α)
  | Except.error a, Except.error b =>
    if h : a = b then Decidable.isTrue (by rw [h])
    else Decidable.isFalse (by intro hh; cases hh; exact h rfl)
  | Except.error _, Except.ok _ => Decidable.isFalse (by intro hh; cases hh)
  | Except.ok _, Except.error _ => Decidable.isFalse (by intro hh; cases hh)
  | Except.ok a, Except.ok b =>
    if h : a = b then Decidable.isTrue (by rw [h])
    else Decidable.isFalse (by intro hh; cases hh; exact h rfl)

/-- Result of variant 2's `transform`: either the returned object or the
message of the raised `ValueError`, plus the log messages and whether the
resampling pipeline ran. -/
structure V2Result where
  output : Except String PyObject
  logs : List String
  didResample : Bool
  deriving DecidableEq, Repr

/-- Variant 2's `transform`: on a non-DataFrame argument, or a DataFrame none
of whose index levels is datetime-typed, log an error and raise a `ValueError`
when `error == "raise"`, otherwise return `X` unchanged; on success run the
aggregation pipeline, coerce zero cells to missing, and `fillna(default_value)`
unless `default_value` is `None`. -/
def v2_transform (c : V2Config) (X : PyObject) : V2Result :=
  match X with
  | PyObject.dataFrame df =>
    if anyDatetimeLevel df then
      let r := zeroToNA (v2core c.frequency c.method c.groupby df)
      match c.default_value with
      | none => ⟨Except.ok (PyObject.dataFrame r), [], true⟩
      | some v => ⟨Except.ok (PyObject.dataFrame (fillna v r)), [], true⟩
    else
      ⟨if c.error = "raise" then Except.error "X does not have a datetime index"
        else Except.ok X,
       ["ResamplerTransformer: X does not have a datetime index"], false⟩
  | PyObject.other _ =>
    ⟨if c.error = "raise" then Except.error "X is not a pandas DataFrame"
      else Except.ok X,
     ["ResamplerTransformer: X is not a pandas DataFrame"], false⟩

/-- The cell of row `i`, column `j` of a variant-2 result's output frame. -/
def v2outCell (r : V2Result) (i j : Nat) : Option (Option ℚ) :=
  match r.output with
  | Except.ok (PyObject.dataFrame f) => cellAt f i j
  | _ => none

/-- Example input for variant 1: a single-level datetime index, one value
column, one group with observations two hours apart, so the middle bucket is
empty and aggregates to missing. -/
def exDF : DataFrame :=
  { indexDtypes := [Dtype.datetime]
    cols := ["v"]
    rows := [(1, 0, [some 1]), (1, 120, [some 5])] }

/-- Example input for variant 2: a (group, datetime) MultiIndex, two value
columns, two groups, zero-valued cells and a missing cell. -/
def exDF2 : DataFrame :=
  { indexDtypes := [Dtype.other, Dtype.datetime]
    cols := ["v", "w"]
    rows := [(7, 0, [some 1, some 0]), (7, 120, [some 5, none]), (3, 30, [some 0, some 2])] }

/-- Example invalid input: a DataFrame none of whose index levels is
datetime-typed. -/
def exBad : DataFrame :=
  { indexDtypes := [Dtype.other]
    cols := ["v"]
    rows := [(1, 0, [some 1])] }

/-- A variant-1 configuration with an explicit default fill value `7` (the
`"first"` method keeps witness evaluation free of rational arithmetic). -/
def c1ex7 : V1Config := v1_init (some 60) (some aggFirst) (some "stay_id") (some 7)

/-- A variant-2 configuration with default fill value `9` and the raise
policy. -/
def c2ex9 : V2Config := v2_init 60 "stay_id" aggFirst (some 9) "raise"

/-- A variant-2 configuration with a null default and the raise policy. -/
def c2exNone : V2Config := v2_init 60 "stay_id" aggFirst none "raise"

/-- A variant-2 configuration whose error policy is a misspelling of
raise. -/
def c2exTypo : V2Config := v2_init 60 "stay_id" aggFirst none "riase"

/-! ### Helper lemmas about the embedded pipeline -/

theorem cellAt_mapCells (f : Option ℚ → Option ℚ) (df : DataFrame) (i j : Nat) :
    cellAt (mapCells f df) i j = (cellAt df i j).map f := by
  unfold cellAt mapCells
  rw [List.getElem?_map]
  cases df.rows[i]? with
  | none => rfl
  | some r => simp [List.getElem?_map]

theorem keysOf_mapCells (f : Option ℚ → Option ℚ) (df : DataFrame) :
    keysOf (mapCells f df) = keysOf df := by
  unfold keysOf mapCells
  rw [List.map_map]
  rfl

theorem keysOf_dropColumn (g : String) (df : DataFrame) :
    keysOf (dropColumn g df) = keysOf df := by
  unfold keysOf dropColumn
  rw [List.map_map]
  rfl

theorem keysOf_resetIndexKey (g : String) (df : DataFrame) :
    keysOf (resetIndexKey g df) = keysOf df := by
  unfold keysOf resetIndexKey
  rw [List.map_map]
  rfl

theorem mem_insertSorted (x a : Int) (l : List Int) :
    x ∈ insertSorted a l ↔ x = a ∨ x ∈ l := by
  induction l with
  | nil => simp [insertSorted]
  | cons y ys ih =>
    unfold insertSorted
    by_cases h : a ≤ y
    · simp [h]
    · simp only [h, if_false, List.mem_cons, ih]
      tauto

theorem mem_sortInts (x : Int) (l : List Int) : x ∈ sortInts l ↔ x ∈ l := by
  induction l with
  | nil => simp [sortInts]
  | cons y ys ih =>
    show x ∈ insertSorted y (sortInts ys) ↔ _
    rw [mem_insertSorted, ih]
    simp

theorem mem_groupKeys (df : DataFrame) (g : Int) :
    g ∈ groupKeys df ↔ g ∈ keysOf df := by
  unfold groupKeys keysOf
  rw [mem_sortInts, List.mem_dedup]

theorem aggRowsFor_key (freq : Int) (m : Agg) (df : DataFrame) (g : Int) :
    ∀ r ∈ aggRowsFor freq m df g, r.1 = g := by
  intro r hr
  unfold aggRowsFor at hr
  split at hr
  · simp at hr
  · simp only [List.mem_map] at hr
    obtain ⟨t, _, rfl⟩ := hr
    rfl

theorem bucketRange_ne_nil (freq bmin bmax : Int) : bucketRange freq bmin bmax ≠ [] := by
  unfold bucketRange
  intro h
  have hlen := congrArg List.length h
  rw [List.length_map, List.length_range] at hlen
  exact Nat.succ_ne_zero _ hlen

theorem aggRowsFor_ne_nil (freq : Int) (m : Agg) (df : DataFrame) (g : Int)
    (hg : g ∈ keysOf df) : aggRowsFor freq m df g ≠ [] := by
  obtain ⟨r, hr, hkey⟩ := List.mem_map.mp hg
  have hmem : r ∈ df.rows.filter (fun r => r.1 = g) := by
    rw [List.mem_filter]
    exact ⟨hr, by simp [hkey]⟩
  unfold aggRowsFor
  split
  next heq =>
    rw [List.map_eq_nil_iff] at heq
    rw [heq] at hmem
    simp at hmem
  next =>
    intro hnil
    exact bucketRange_ne_nil _ _ _ (List.map_eq_nil_iff.mp hnil)

theorem mem_keysOf_aggregated (freq : Int) (m : Agg) (df : DataFrame) (k : Int) :
    k ∈ keysOf (aggregated freq m df) ↔ k ∈ keysOf df := by
  constructor
  · intro hk
    obtain ⟨r, hrmem, hr1⟩ := List.mem_map.mp hk
    obtain ⟨g, hg, hrg⟩ := List.mem_flatMap.mp hrmem
    rw [← hr1, aggRowsFor_key freq m df g r hrg]
    exact (mem_groupKeys df g).mp hg
  · intro hk
    obtain ⟨r, hr⟩ := List.exists_mem_of_ne_nil _ (aggRowsFor_ne_nil freq m df k hk)
    exact List.mem_map.mpr ⟨r,
      List.mem_flatMap.mpr ⟨k, (mem_groupKeys df k).mpr hk, hr⟩,
      aggRowsFor_key freq m df k r hr⟩

theorem cellAt_zeroToNA (df : DataFrame) (i j : Nat) :
    cellAt (zeroToNA df) i j =
      (cellAt df i j).map (fun c => if c = some 0 then none else c) :=
  cellAt_mapCells _ _ _ _

theorem cellAt_fillna (v : ℚ) (df : DataFrame) (i j : Nat) :
    cellAt (fillna v df) i j = (cellAt df i j).map (fun c => some (c.getD v)) :=
  cellAt_mapCells _ _ _ _

theorem keysOf_fillna (v : ℚ) (df : DataFrame) : keysOf (fillna v df) = keysOf df :=
  keysOf_mapCells _ _

theorem keysOf_zeroToNA (df : DataFrame) : keysOf (zeroToNA df) = keysOf df :=
  keysOf_mapCells _ _

theorem mem_keysOf_v2core (freq : Int) (m : Agg) (g : String) (df : DataFrame) (k : Int) :
    k ∈ keysOf (v2core freq m g df) ↔ k ∈ keysOf df := by
  unfold v2core
  rw [keysOf_dropColumn, mem_keysOf_aggregated, keysOf_resetIndexKey]

theorem groupby_notin_v2core_cols (freq : Int) (m : Agg) (g : String) (df : DataFrame) :
    g ∉ (v2core freq m g df).cols := by
  unfold v2core dropColumn
  intro h
  rw [List.mem_filter] at h
  simp at h

/-! ### Claim theorems -/

/-- C9: for both variants and all arguments, `fit` performs no computation and
no validation, mutates none of the configuration fields, and returns the
transformer instance itself unchanged. -/
theorem fit_returns_self_unchanged (c1 : V1Config) (c2 : V2Config)
    (X : PyObject) (Xopt y : Option PyObject) :
    v1_fit c1 Xopt y = c1 ∧ v2_fit c2 X y = c2 :=
  ⟨rfl, rfl⟩

/-- C4: variant 2 with the default error policy, called on any argument that is
not a DataFrame, logs an error, raises a ValueError whose message states the
table-type requirement, and performs no aggregation work. -/
theorem v2_raises_on_non_dataframe (c : V2Config) (h : c.error = "raise")
    (s : String) :
    v2_transform c (PyObject.other s) =
      ⟨Except.error "X is not a pandas DataFrame",
       ["ResamplerTransformer: X is not a pandas DataFrame"], false⟩ := by
  simp [v2_transform, h]

/-- Witness for C4 at a concrete non-DataFrame argument. -/
theorem v2_raises_on_non_dataframe_witness :
    v2_transform c2exNone (PyObject.other "ndarray") =
      ⟨Except.error "X is not a pandas DataFrame",
       ["ResamplerTransformer: X is not a pandas DataFrame"], false⟩ :=
  v2_raises_on_non_dataframe c2exNone rfl "ndarray"

/-- C5: variant 2 with the raise policy, called on a DataFrame none of whose
index levels is datetime-typed, logs an error and raises a ValueError whose
message states the datetime-index requirement, before any aggregation
(`didResample = false`); the table-type check comes first, so a non-DataFrame
argument yields the table-type error instead. -/
theorem v2_raises_on_missing_datetime_index (c : V2Config) (h : c.error = "raise")
    (df : DataFrame) (hidx : anyDatetimeLevel df = false) (s : String) :
    v2_transform c (PyObject.dataFrame df) =
      ⟨Except.error "X does not have a datetime index",
       ["ResamplerTransformer: X does not have a datetime index"], false⟩ ∧
    (v2_transform c (PyObject.other s)).output =
      Except.error "X is not a pandas DataFrame" := by
  constructor
  · simp [v2_transform, hidx, h]
  · simp [v2_transform, h]

/-- Witness for C5 at a concrete DataFrame with a non-datetime index. -/
theorem v2_raises_on_missing_datetime_index_witness :
    v2_transform c2exNone (PyObject.dataFrame exBad) =
      ⟨Except.error "X does not have a datetime index",
       ["ResamplerTransformer: X does not have a datetime index"], false⟩ ∧
    (v2_transform c2exNone (PyObject.other "ndarray")).output =
      Except.error "X is not a pandas DataFrame" :=
  v2_raises_on_missing_datetime_index c2exNone rfl exBad rfl "ndarray"

/-- C6: variant 1 never raises on a validation failure: on a non-DataFrame
argument, or a DataFrame without a datetime index, it logs the error and
returns the input object unchanged, performing no aggregation
(`didResample = false`). -/
theorem v1_validation_failure_is_no_op (c : V1Config) (s : String)
    (df : DataFrame) (hidx : isDatetimeIndex df = false) :
    v1_transform c (PyObject.other s) =
      ⟨PyObject.other s, ["ResamplerTransformer: X is not a pandas DataFrame"], false⟩ ∧
    v1_transform c (PyObject.dataFrame df) =
      ⟨PyObject.dataFrame df,
       ["ResamplerTransformer: X does not have a datetime index"], false⟩ := by
  constructor
  · rfl
  · simp [v1_transform, hidx]

/-- Witness for C6 at concrete invalid inputs. -/
theorem v1_validation_failure_is_no_op_witness :
    v1_transform c1ex7 (PyObject.other "ndarray") =
      ⟨PyObject.other "ndarray",
       ["ResamplerTransformer: X is not a pandas DataFrame"], false⟩ ∧
    v1_transform c1ex7 (PyObject.dataFrame exBad) =
      ⟨PyObject.dataFrame exBad,
       ["ResamplerTransformer: X does not have a datetime index"], false⟩ :=
  v1_validation_failure_is_no_op c1ex7 "ndarray" exBad rfl

/-- C7: the index precondition differs between the variants: variant 1
proceeds to resampling exactly when the single index is datetime-typed, while
variant 2 proceeds exactly when at least one index level is datetime-typed; in
all other cases each variant takes its failure path (variant 1 returns the
input unchanged, variant 2 raises or returns it according to its error
policy). -/
theorem index_precondition_differs_between_variants (c1 : V1Config)
    (c2 : V2Config) (df : DataFrame) :
    ((v1_transform c1 (PyObject.dataFrame df)).didResample = true ↔
      isDatetimeIndex df = true) ∧
    ((v2_transform c2 (PyObject.dataFrame df)).didResample = true ↔
      anyDatetimeLevel df = true) ∧
    (isDatetimeIndex df = false →
      (v1_transform c1 (PyObject.dataFrame df)).output = PyObject.dataFrame df) ∧
    (anyDatetimeLevel df = false →
      (v2_transform c2 (PyObject.dataFrame df)).output =
        (if c2.error = "raise" then Except.error "X does not have a datetime index"
          else Except.ok (PyObject.dataFrame df))) := by
  refine ⟨?_, ?_, ?_, ?_⟩
  · cases h : isDatetimeIndex df <;>
      cases hd : c1.default_value <;> simp [v1_transform, h, hd]
  · cases h : anyDatetimeLevel df <;>
      cases hd : c2.default_value <;> simp [v2_transform, h, hd]
  · intro h
    simp [v1_transform, h]
  · intro h
    simp [v2_transform, h]

/-- Witness for C7 at a concrete DataFrame failing both index checks. -/
theorem index_precondition_differs_between_variants_witness :
    ((v1_transform c1ex7 (PyObject.dataFrame exBad)).didResample = true ↔
      isDatetimeIndex exBad = true) ∧
    ((v2_transform c2ex9 (PyObject.dataFrame exBad)).didResample = true ↔
      anyDatetimeLevel exBad = true) ∧
    (isDatetimeIndex exBad = false →
      (v1_transform c1ex7 (PyObject.dataFrame exBad)).output = PyObject.dataFrame exBad) ∧
    (anyDatetimeLevel exBad = false →
      (v2_transform c2ex9 (PyObject.dataFrame exBad)).output =
        (if c2ex9.error = "raise" then Except.error "X does not have a datetime index"
          else Except.ok (PyObject.dataFrame exBad))) :=
  index_precondition_differs_between_variants c1ex7 c2ex9 exBad

/-- C10 (implicit): variant 2 consults only the literal string `"raise"`: for
any other error-policy string, including misspellings, `transform` behaves
exactly as the ignore policy, logging and returning the input unchanged on a
validation failure. -/
theorem v2_non_raise_policy_behaves_as_ignore (c : V2Config)
    (h : c.error ≠ "raise") (X : PyObject) (s : String) (df : DataFrame)
    (hidx : anyDatetimeLevel df = false) :
    v2_transform c X = v2_transform { c with error := "ignore" } X ∧
    v2_transform c (PyObject.other s) =
      ⟨Except.ok (PyObject.other s),
       ["ResamplerTransformer: X is not a pandas DataFrame"], false⟩ ∧
    v2_transform c (PyObject.dataFrame df) =
      ⟨Except.ok (PyObject.dataFrame df),
       ["ResamplerTransformer: X does not have a datetime index"], false⟩ := by
  have hig : ("ignore" : String) ≠ "raise" := by decide
  refine ⟨?_, ?_, ?_⟩
  · cases X with
    | dataFrame d =>
      cases hl : anyDatetimeLevel d with
      | true => cases hd : c.default_value <;> simp [v2_transform, hl, hd]
      | false => simp [v2_transform, hl, h, hig]
    | other t => simp [v2_transform, h, hig]
  · simp [v2_transform, h]
  · simp [v2_transform, hidx, h]

/-- Witness for C10 at a concrete misspelt policy and invalid inputs. -/
theorem v2_non_raise_policy_behaves_as_ignore_witness :
    v2_transform c2exTypo (PyObject.other "ndarray") =
      v2_transform { c2exTypo with error := "ignore" } (PyObject.other "ndarray") ∧
    v2_transform c2exTypo (PyObject.other "ndarray") =
      ⟨Except.ok (PyObject.other "ndarray"),
       ["ResamplerTransformer: X is not a pandas DataFrame"], false⟩ ∧
    v2_transform c2exTypo (PyObject.dataFrame exBad) =
      ⟨Except.ok (PyObject.dataFrame exBad),
       ["ResamplerTransformer: X does not have a datetime index"], false⟩ :=
  v2_non_raise_policy_behaves_as_ignore c2exTypo (by decide)
    (PyObject.other "ndarray") "ndarray" exBad rfl

/-- C1: on a valid input, variant 2's transform drops the grouping-key column
that persisted through aggregation (it is absent from the output columns), and
every cell whose aggregated value is numerically zero is coerced to missing
before the default-fill step; consequently, with `default_value = v`, such a
cell equals `v` in the output. -/
theorem v2_drops_key_column_and_fills_zeroed_cells (c : V2Config) (v : ℚ)
    (hdef : c.default_value = some v) (df : DataFrame)
    (hidx : anyDatetimeLevel df = true) (i j : Nat)
    (hzero : cellAt (v2core c.frequency c.method c.groupby df) i j = some (some 0)) :
    (v2_transform c (PyObject.dataFrame df)).output =
      Except.ok (PyObject.dataFrame
        (fillna v (zeroToNA (v2core c.frequency c.method c.groupby df)))) ∧
    c.groupby ∉
      (fillna v (zeroToNA (v2core c.frequency c.method c.groupby df))).cols ∧
    cellAt (zeroToNA (v2core c.frequency c.method c.groupby df)) i j = some none ∧
    v2outCell (v2_transform c (PyObject.dataFrame df)) i j = some (some v) := by
  have hout : v2_transform c (PyObject.dataFrame df) =
      ⟨Except.ok (PyObject.dataFrame
        (fillna v (zeroToNA (v2core c.frequency c.method c.groupby df)))), [], true⟩ := by
    simp [v2_transform, hidx, hdef]
  have hz : cellAt (zeroToNA (v2core c.frequency c.method c.groupby df)) i j =
      some none := by
    rw [cellAt_zeroToNA, hzero]
    decide
  refine ⟨by rw [hout], ?_, hz, ?_⟩
  · show c.groupby ∉ (v2core c.frequency c.method c.groupby df).cols
    exact groupby_notin_v2core_cols _ _ _ _
  · rw [hout]
    show cellAt (fillna v (zeroToNA (v2core c.frequency c.method c.groupby df))) i j =
      some (some v)
    rw [cellAt_fillna, hz]
    rfl

/-- Witness for C1 at a concrete input whose first cell aggregates to zero. -/
theorem v2_drops_key_column_and_fills_zeroed_cells_witness :
    (v2_transform c2ex9 (PyObject.dataFrame exDF2)).output =
      Except.ok (PyObject.dataFrame
        (fillna 9 (zeroToNA (v2core c2ex9.frequency c2ex9.method c2ex9.groupby exDF2)))) ∧
    c2ex9.groupby ∉
      (fillna 9 (zeroToNA (v2core c2ex9.frequency c2ex9.method c2ex9.groupby exDF2))).cols ∧
    cellAt (zeroToNA (v2core c2ex9.frequency c2ex9.method c2ex9.groupby exDF2)) 0 0 =
      some none ∧
    v2outCell (v2_transform c2ex9 (PyObject.dataFrame exDF2)) 0 0 = some (some 9) :=
  v2_drops_key_column_and_fills_zeroed_cells c2ex9 9 rfl exDF2 rfl 0 0 (by decide)

/-- C2 counterexample: a variant-1 transformer constructed with
`default_value=None` stores `0.0` instead, so on a valid input a missing cell
(the empty middle bucket of `exDF`) comes out as `0`, not missing — the claim
fails for variant 1. -/
theorem v1_null_default_fills_missing_cell_with_zero :
    (v1_init none none none none).default_value = some 0 ∧
    cellAt (aggregated 60 aggMean exDF) 1 0 = some none ∧
    v1outCell (v1_transform (v1_init none none none none) (PyObject.dataFrame exDF)) 1 0 =
      some (some 0) := by
  refine ⟨rfl, by decide, by decide⟩

/-- C2 (amended): a variant-2 transformer with a null `default_value` leaves
missing cells missing; variant 1's constructor coerces a null `default_value`
to `0.0`, so a constructed variant-1 transformer fills missing cells with
`0.0`. -/
theorem null_default_keeps_missing_cells_v2_only (c : V2Config)
    (hdef : c.default_value = none) (df : DataFrame)
    (hidx : anyDatetimeLevel df = true) (i j : Nat)
    (f : Option Int) (m : Option Agg) (g : Option String)
    (hmiss : cellAt (v2core c.frequency c.method c.groupby df) i j = some none) :
    (v1_init f m g none).default_value = some 0 ∧
    (v2_transform c (PyObject.dataFrame df)).output =
      Except.ok (PyObject.dataFrame
        (zeroToNA (v2core c.frequency c.method c.groupby df))) ∧
    v2outCell (v2_transform c (PyObject.dataFrame df)) i j = some none := by
  have hout : v2_transform c (PyObject.dataFrame df) =
      ⟨Except.ok (PyObject.dataFrame
        (zeroToNA (v2core c.frequency c.method c.groupby df))), [], true⟩ := by
    simp [v2_transform, hidx, hdef]
  refine ⟨rfl, by rw [hout], ?_⟩
  rw [hout]
  show cellAt (zeroToNA (v2core c.frequency c.method c.groupby df)) i j = some none
  rw [cellAt_zeroToNA, hmiss]
  decide

/-- Witness for the amended C2 at a concrete input with a missing bucket. -/
theorem null_default_keeps_missing_cells_v2_only_witness :
    (v1_init none none none none).default_value = some 0 ∧
    (v2_transform c2exNone (PyObject.dataFrame exDF2)).output =
      Except.ok (PyObject.dataFrame
        (zeroToNA (v2core c2exNone.frequency c2exNone.method c2exNone.groupby exDF2))) ∧
    v2outCell (v2_transform c2exNone (PyObject.dataFrame exDF2)) 2 0 = some none :=
  null_default_keeps_missing_cells_v2_only c2exNone rfl exDF2 rfl 2 0
    none none none (by decide)

/-- C3: with a non-null `default_value`, neither variant leaves any missing
cell in the output, and every cell that would otherwise be missing (an empty
bucket's aggregate, or a zero-coerced cell of variant 2) equals the default. -/
theorem default_fill_leaves_no_missing_cells (c1 : V1Config) (c2 : V2Config)
    (v1 v2 : ℚ) (h1 : c1.default_value = some v1) (h2 : c2.default_value = some v2)
    (df1 df2 : DataFrame) (hidx1 : isDatetimeIndex df1 = true)
    (hidx2 : anyDatetimeLevel df2 = true) (i j k l : Nat)
    (hmiss1 : cellAt (aggregated c1.frequency c1.method df1) i j = some none)
    (hmiss2 : cellAt (zeroToNA (v2core c2.frequency c2.method c2.groupby df2)) k l =
      some none) :
    (∀ p q, v1outCell (v1_transform c1 (PyObject.dataFrame df1)) p q ≠ some none) ∧
    (∀ p q, v2outCell (v2_transform c2 (PyObject.dataFrame df2)) p q ≠ some none) ∧
    v1outCell (v1_transform c1 (PyObject.dataFrame df1)) i j = some (some v1) ∧
    v2outCell (v2_transform c2 (PyObject.dataFrame df2)) k l = some (some v2) := by
  have hout1 : v1_transform c1 (PyObject.dataFrame df1) =
      ⟨PyObject.dataFrame (fillna v1 (aggregated c1.frequency c1.method df1)),
       [], true⟩ := by
    simp [v1_transform, hidx1, h1]
  have hout2 : v2_transform c2 (PyObject.dataFrame df2) =
      ⟨Except.ok (PyObject.dataFrame
        (fillna v2 (zeroToNA (v2core c2.frequency c2.method c2.groupby df2)))),
       [], true⟩ := by
    simp [v2_transform, hidx2, h2]
  refine ⟨?_, ?_, ?_, ?_⟩
  · intro p q
    rw [hout1]
    show cellAt (fillna v1 (aggregated c1.frequency c1.method df1)) p q ≠ some none
    rw [cellAt_fillna]
    cases cellAt (aggregated c1.frequency c1.method df1) p q <;> simp
  · intro p q
    rw [hout2]
    show cellAt (fillna v2 (zeroToNA (v2core c2.frequency c2.method c2.groupby df2)))
      p q ≠ some none
    rw [cellAt_fillna]
    cases cellAt (zeroToNA (v2core c2.frequency c2.method c2.groupby df2)) p q <;> simp
  · rw [hout1]
    show cellAt (fillna v1 (aggregated c1.frequency c1.method df1)) i j = some (some v1)
    rw [cellAt_fillna, hmiss1]
    rfl
  · rw [hout2]
    show cellAt (fillna v2 (zeroToNA (v2core c2.frequency c2.method c2.groupby df2)))
      k l = some (some v2)
    rw [cellAt_fillna, hmiss2]
    rfl

/-- Witness for C3 at concrete inputs with a missing bucket in each variant. -/
theorem default_fill_leaves_no_missing_cells_witness :
    (∀ p q, v1outCell (v1_transform c1ex7 (PyObject.dataFrame exDF)) p q ≠ some none) ∧
    (∀ p q, v2outCell (v2_transform c2ex9 (PyObject.dataFrame exDF2)) p q ≠ some none) ∧
    v1outCell (v1_transform c1ex7 (PyObject.dataFrame exDF)) 1 0 = some (some 7) ∧
    v2outCell (v2_transform c2ex9 (PyObject.dataFrame exDF2)) 2 0 = some (some 9) :=
  default_fill_leaves_no_missing_cells c1ex7 c2ex9 7 9 rfl rfl exDF exDF2 rfl rfl
    1 0 2 0 (by decide) (by decide)

/-- C8: for every valid input of either variant, the set of distinct
grouping-key values appearing in the transform output equals the set of
grouping-key values present in the input. -/
theorem transform_preserves_group_keys (c1 : V1Config) (c2 : V2Config)
    (df1 df2 : DataFrame) (h1 : isDatetimeIndex df1 = true)
    (h2 : anyDatetimeLevel df2 = true) :
    (∃ F, (v1_transform c1 (PyObject.dataFrame df1)).output = PyObject.dataFrame F ∧
      ∀ k, (k ∈ keysOf F ↔ k ∈ keysOf df1)) ∧
    (∃ F, (v2_transform c2 (PyObject.dataFrame df2)).output =
        Except.ok (PyObject.dataFrame F) ∧
      ∀ k, (k ∈ keysOf F ↔ k ∈ keysOf df2)) := by
  constructor
  · cases hd : c1.default_value with
    | none =>
      refine ⟨aggregated c1.frequency c1.method df1, ?_, ?_⟩
      · simp [v1_transform, h1, hd]
      · intro k
        exact mem_keysOf_aggregated _ _ _ _
    | some v =>
      refine ⟨fillna v (aggregated c1.frequency c1.method df1), ?_, ?_⟩
      · simp [v1_transform, h1, hd]
      · intro k
        rw [keysOf_fillna]
        exact mem_keysOf_aggregated _ _ _ _
  · cases hd : c2.default_value with
    | none =>
      refine ⟨zeroToNA (v2core c2.frequency c2.method c2.groupby df2), ?_, ?_⟩
      · simp [v2_transform, h2, hd]
      · intro k
        rw [keysOf_zeroToNA]
        exact mem_keysOf_v2core _ _ _ _ _
    | some v =>
      refine ⟨fillna v (zeroToNA (v2core c2.frequency c2.method c2.groupby df2)), ?_, ?_⟩
      · simp [v2_transform, h2, hd]
      · intro k
        rw [keysOf_fillna, keysOf_zeroToNA]
        exact mem_keysOf_v2core _ _ _ _ _

/-- Witness for C8 at concrete valid inputs for both variants. -/
theorem transform_preserves_group_keys_witness :
    (∃ F, (v1_transform c1ex7 (PyObject.dataFrame exDF)).output = PyObject.dataFrame F ∧
      ∀ k, (k ∈ keysOf F ↔ k ∈ keysOf exDF)) ∧
    (∃ F, (v2_transform c2ex9 (PyObject.dataFrame exDF2)).output =
        Except.ok (PyObject.dataFrame F) ∧
      ∀ k, (k ∈ keysOf F ↔ k ∈ keysOf exDF2)) :=
  transform_preserves_group_keys c1ex7 c2ex9 exDF exDF2 rfl rfl
